import Mathlib

/-!
Verification of the FAT32 block-device core of the cs3240 repository:
the `CachedPartition` translating sector cache (`src/lib/fat32/src/vfat/cache.rs`),
the Master Boot Record reader (`src/lib/fat32/src/mbr.rs`) and the
BIOS Parameter Block reader (`src/lib/fat32/src/vfat/ebpb.rs`).

Machine integers (`u64`, `usize`) are modelled as `Nat`; none of the verified
paths can overflow 64 bits in a way the claims depend on.  Byte buffers are
`List Nat`.  The `HashMap<u64, CacheEntry>` is modelled as a total function
`Nat → Option CacheEntry`.  Rust methods that mutate `self` are modelled as
state-passing functions returning the result together with the new state.
-/

/-- IO-style errors used by the cache layer (`shim::io::ErrorKind` values that
the verified code can actually produce). -/
inductive IOError where
  | invalidInput
  | unexpectedEof
  | devError
  deriving DecidableEq, Repr

/-- Modelled from the spec: the consumed Block Device capability
(`crate::traits::BlockDevice`, not present under src/) — a fixed physical
sector size and a sector read that can fail.  `read n = none` models a device
IO failure (or short read) on physical sector `n`; `read n = some bytes`
models a successful full read of that sector's bytes. -/
structure Device where
  sector_size : Nat
  read : Nat → Option (List Nat)

/-- Modelled from the spec: `BlockDevice::read_all_sector`, the helper used by
`CachedPartition::load_sector` (its definition lives in the missing traits
module).  Per spec §4.3, reading a physical sector appends that sector's bytes
in order onto the supplied vector, and any device failure or short read is an
error. -/
def Device.read_all_sector (d : Device) (n : Nat) (buf : List Nat) :
    Option (List Nat) :=
  (d.read n).map (fun bs => buf ++ bs)

/-- `Partition` from cache.rs: start sector, number of logical sectors, and
the logical sector size in bytes. -/
structure Partition where
  start : Nat
  num_sectors : Nat
  sector_size : Nat

/-- `CacheEntry` from cache.rs: a logical sector's cached bytes plus a dirty
flag. -/
structure CacheEntry where
  data : List Nat
  dirty : Bool
  deriving DecidableEq, Repr

/-- `CachedPartition` from cache.rs.  The `cache_line_buffer` scratch field is
not modelled as state: the code only ever reinterprets its storage as a fresh
length-zero vector, so its contents never flow into any result.  `readCount`
instruments the number of physical-device sector reads performed so far, for
the cache-coherence claims. -/
structure CachedPartition where
  device : Device
  cache : Nat → Option CacheEntry
  partition : Partition
  readCount : Nat

namespace CachedPartition

/-- `CachedPartition::new`.  The Rust constructor `assert!`s that
`partition.sector_size >= device.sector_size()` and otherwise always returns a
fresh `CachedPartition`; `none` models the panic of a failed assertion. -/
def new (device : Device) (partition : Partition) : Option CachedPartition :=
  if device.sector_size ≤ partition.sector_size then
    some ⟨device, fun _ => none, partition, 0⟩
  else
    none

/-- `CachedPartition::factor`: physical sectors per logical sector. -/
def factor (c : CachedPartition) : Nat :=
  c.partition.sector_size / c.device.sector_size

/-- `CachedPartition::virtual_to_physical`: maps a logical sector to its
physical sector, `none` when out of range. -/
def virtual_to_physical (c : CachedPartition) (virt : Nat) : Option Nat :=
  if c.partition.num_sectors ≤ virt then
    none
  else
    some (c.partition.start + virt * c.factor)

/-- The loop of `load_sector`: reads `k` consecutive physical sectors starting
at `phy + i` through `read_all_sector`, accumulating into the scratch line
buffer and counting the successful physical reads performed. -/
def readRun (d : Device) (phy : Nat) : Nat → Nat → List Nat → Nat →
    Except IOError (List Nat) × Nat
  | _, 0, acc, cnt => (.ok acc, cnt)
  | i, k + 1, acc, cnt =>
    match d.read_all_sector (phy + i) acc with
    | none => (.error .devError, cnt)
    | some acc2 => readRun d phy (i + 1) k acc2 (cnt + 1)

/-- `CachedPartition::load_sector`.  The Rust code clears `buf`, translates the
logical sector (mapping out-of-range to `InvalidInput`), then reads `factor()`
consecutive physical sectors through `read_all_sector` — but into the
reinterpreted scratch `line_buffer` (fresh and of length 0), never into `buf`.
On success the returned buffer is therefore the cleared `buf`, i.e. empty. -/
def load_sector (c : CachedPartition) (buf : List Nat) (sector : Nat) :
    Except IOError (List Nat) × CachedPartition :=
  let _ := buf
  let cleared : List Nat := []
  match c.virtual_to_physical sector with
  | none => (.error .invalidInput, c)
  | some phy_id =>
    match readRun c.device phy_id 0 c.factor [] 0 with
    | (.error e, n) => (.error e, { c with readCount := c.readCount + n })
    | (.ok _line, n) => (.ok cleared, { c with readCount := c.readCount + n })

/-- `CachedPartition::get_entry`: returns the cached entry for `sector`,
first loading and inserting it (clean) when absent. -/
def get_entry (c : CachedPartition) (sector : Nat) :
    Except IOError CacheEntry × CachedPartition :=
  match c.cache sector with
  | some e => (.ok e, c)
  | none =>
    match c.load_sector [] sector with
    | (.error e, c2) => (.error e, c2)
    | (.ok buf, c2) =>
      let entry : CacheEntry := ⟨buf, false⟩
      (.ok entry,
        { c2 with cache := fun s => if s = sector then some entry else c2.cache s })

/-- `CachedPartition::get`: immutable view of the cached sector's bytes. -/
def get (c : CachedPartition) (sector : Nat) :
    Except IOError (List Nat) × CachedPartition :=
  match c.get_entry sector with
  | (.ok e, c2) => (.ok e.data, c2)
  | (.error er, c2) => (.error er, c2)

/-- `CachedPartition::get_mut`: like `get` but unconditionally marks the
entry dirty. -/
def get_mut (c : CachedPartition) (sector : Nat) :
    Except IOError (List Nat) × CachedPartition :=
  match c.get_entry sector with
  | (.ok e, c2) =>
    (.ok e.data,
      { c2 with cache := fun s => if s = sector then some ⟨e.data, true⟩ else c2.cache s })
  | (.error er, c2) => (.error er, c2)

/-- The `BlockDevice::sector_size` implementation for `CachedPartition`
(cache.rs line 160 is `self.sector_size()`):  `CachedPartition` has no
inherent `sector_size` method, so the call resolves to this very trait method
and recurses unconditionally.  The extra `Nat` is fuel; `none` means no result
was produced within that call depth — i.e. the call never returns. -/
def sector_size_impl : CachedPartition → Nat → Option Nat
  | _, 0 => none
  | c, fuel + 1 => sector_size_impl c fuel

/-- `<CachedPartition as BlockDevice>::read_sector`: copies
`min(cached.len, buf.len)` bytes of the cached sector into the caller's
buffer, returning the count and the caller's buffer after the copy. -/
def read_sector (c : CachedPartition) (sector : Nat) (buf : List Nat) :
    Except IOError (Nat × List Nat) × CachedPartition :=
  match c.get sector with
  | (.ok data, c2) =>
    let amt := min data.length buf.length
    (.ok (amt, data.take amt ++ buf.drop amt), c2)
  | (.error e, c2) => (.error e, c2)

/-- `<CachedPartition as BlockDevice>::write_sector`: copies
`min(cached.len, buf.len)` bytes of the caller's buffer over the start of the
cached (and now dirty) sector, returning the count. -/
def write_sector (c : CachedPartition) (sector : Nat) (buf : List Nat) :
    Except IOError Nat × CachedPartition :=
  match c.get_mut sector with
  | (.ok data, c2) =>
    let amt := min data.length buf.length
    let newData := buf.take amt ++ data.drop amt
    (.ok amt,
      { c2 with cache := fun s => if s = sector then some ⟨newData, true⟩ else c2.cache s })
  | (.error e, c2) => (.error e, c2)

end CachedPartition

/-! ## Master Boot Record (src/lib/fat32/src/mbr.rs) -/

/-- Little-endian 16-bit field at byte offset `off` of `buf`. -/
def u16le (buf : List Nat) (off : Nat) : Nat :=
  buf.getD off 0 + 256 * buf.getD (off + 1) 0

/-- Little-endian 32-bit field at byte offset `off` of `buf`. -/
def u32le (buf : List Nat) (off : Nat) : Nat :=
  buf.getD off 0 + 256 * buf.getD (off + 1) 0 +
    65536 * buf.getD (off + 2) 0 + 16777216 * buf.getD (off + 3) 0

/-- `mbr::Error`. -/
inductive MbrError where
  | io
  | unknownBootIndicator (idx : Nat)
  | badSignature
  deriving DecidableEq, Repr

/-- `mbr::PartitionEntry` (the decoded fields; the CHS triplets are legacy
and advisory only). -/
structure PartitionEntry where
  boot_indicator : Nat
  partition_type : Nat
  sector_offset : Nat
  num_sectors : Nat
  deriving DecidableEq, Repr

/-- Decodes the `i`-th (0-indexed) 16-byte partition entry of a 512-byte MBR
sector: boot indicator at offset 446 + 16i, type at +4, starting LBA at +8
(little-endian u32), sector count at +12. -/
def decodeEntry (buf : List Nat) (i : Nat) : PartitionEntry :=
  ⟨buf.getD (446 + 16 * i) 0, buf.getD (446 + 16 * i + 4) 0,
    u32le buf (446 + 16 * i + 8), u32le buf (446 + 16 * i + 12)⟩

/-- `mbr::MasterBootRecord` (decoded form). -/
structure MasterBootRecord where
  disk_id : List Nat
  partions : List PartitionEntry
  magic : List Nat
  deriving DecidableEq, Repr

/-- The boot-indicator validation loop of `MasterBootRecord::from`: checks
entries `i, i+1, …` (with `k` entries left), failing with
`UnknownBootIndicator(i)` at the first entry whose indicator is neither
`0x00` nor `0x80` (`PartitionEntry::BOOTABLE`). -/
def checkIndicators (buf : List Nat) : Nat → Nat → Except MbrError Unit
  | _, 0 => .ok ()
  | i, k + 1 =>
    let ind := buf.getD (446 + 16 * i) 0
    if ind ≠ 0 ∧ ind ≠ 128 then
      .error (.unknownBootIndicator i)
    else
      checkIndicators buf (i + 1) k

/-- The decode `MasterBootRecord::from` performs on a successfully read
512-byte sector-0 buffer. -/
def decodeMBR (buf : List Nat) : MasterBootRecord :=
  ⟨(buf.drop 436).take 10,
    [decodeEntry buf 0, decodeEntry buf 1, decodeEntry buf 2, decodeEntry buf 3],
    (buf.drop 510).take 2⟩

/-- The validation-and-decode body of `MasterBootRecord::from` on a
successfully read 512-byte sector-0 buffer (mbr.rs lines 109-121): the
trailing magic must be `0x55, 0xAA`, then the four boot indicators are checked
in ascending order. -/
def MasterBootRecord.from (buf : List Nat) : Except MbrError MasterBootRecord :=
  if ¬(buf.getD 510 0 = 85 ∧ buf.getD 511 0 = 170) then
    .error .badSignature
  else
    match checkIndicators buf 0 4 with
    | .error e => .error e
    | .ok _ => .ok (decodeMBR buf)

/-! ## BIOS Parameter Block (src/lib/fat32/src/vfat/ebpb.rs) -/

/-- Modelled from the spec: `vfat::Error` (its module is not present under
src/); the EBPB reader only produces `Io` and `BadSignature`. -/
inductive VfatError where
  | io
  | badSignature
  deriving DecidableEq, Repr

/-- `vfat::ebpb::BiosParameterBlock` — the packed 512-byte FAT32 volume
descriptor, decoded field by field (multi-byte fields little-endian). -/
structure BiosParameterBlock where
  jump_code : List Nat
  oem_ident : List Nat
  bytes_per_sector : Nat
  sectors_per_cluster : Nat
  reserved_sectors : Nat
  num_fats : Nat
  max_dir_entries : Nat
  logical_sectors_1 : Nat
  media_descriptor : Nat
  old_sectors_per_fat : Nat
  sector_per_track : Nat
  num_heads : Nat
  num_hidden_sectors : Nat
  logical_sectors_2 : Nat
  sectors_per_fat : Nat
  flags : Nat
  fat_version : Nat
  root_cluster : Nat
  fsinfo_sector : Nat
  backup_boot_sector : Nat
  drive_number : Nat
  nt_flags : Nat
  signature : Nat
  volumeid_serial : Nat
  volume_label : List Nat
  system_identifer : List Nat
  magic : List Nat
  deriving DecidableEq, Repr

/-- Decodes a 512-byte buffer at the `BiosParameterBlock` packed layout:
bytes/sector at offset 11, the 16-bit legacy sector count at 19, the 32-bit
extended sector count at 32, the extended signature byte at 66, the trailing
magic at 510. -/
def decodeBPB (buf : List Nat) : BiosParameterBlock :=
  ⟨(buf.take 3), (buf.drop 3).take 8, u16le buf 11, buf.getD 13 0,
    u16le buf 14, buf.getD 16 0, u16le buf 17, u16le buf 19, buf.getD 21 0,
    u16le buf 22, u16le buf 24, u16le buf 26, u32le buf 28, u32le buf 32,
    u32le buf 36, u16le buf 40, u16le buf 42, u32le buf 44, u16le buf 48,
    u16le buf 50, buf.getD 64 0, buf.getD 65 0, buf.getD 66 0, u32le buf 67,
    (buf.drop 71).take 11, (buf.drop 82).take 8, (buf.drop 510).take 2⟩

/-- The validation-and-decode body of `BiosParameterBlock::from` on a
successfully read 512-byte sector (ebpb.rs lines 61-69): the trailing magic
must be `0x55, 0xAA` and the extended-signature byte must be `0x28` or
`0x29`, else `BadSignature`. -/
def BiosParameterBlock.from (buf : List Nat) : Except VfatError BiosParameterBlock :=
  if ¬(buf.getD 510 0 = 85 ∧ buf.getD 511 0 = 170) ∨
      (buf.getD 66 0 ≠ 40 ∧ buf.getD 66 0 ≠ 41) then
    .error .badSignature
  else
    .ok (decodeBPB buf)

/-- `BiosParameterBlock::logical_sectors`: the 16-bit legacy field when
nonzero, otherwise the 32-bit extended field. -/
def BiosParameterBlock.logical_sectors (b : BiosParameterBlock) : Nat :=
  if 0 < b.logical_sectors_1 then b.logical_sectors_1 else b.logical_sectors_2

/-! ## Concrete fixtures -/

/-- A total 512-byte-sector device whose every sector reads as 512 copies of
byte 7. -/
def device0 : Device :=
  ⟨512, fun _ => some (List.replicate 512 7)⟩

/-- A device whose every read fails. -/
def deviceBad : Device :=
  ⟨512, fun _ => none⟩

/-- The partition of spec §8: start 2048, 1000 logical sectors of 512
bytes. -/
def part0 : Partition := ⟨2048, 1000, 512⟩

/-- The cached partition `CachedPartition::new device0 part0` produces. -/
def cp0 : CachedPartition := ⟨device0, fun _ => none, part0, 0⟩

/-- Same partition over the always-failing device. -/
def cpBad : CachedPartition := ⟨deviceBad, fun _ => none, part0, 0⟩

/-- A partition whose logical sector size (768) is at least, but not a
multiple of, the 512-byte physical sector size. -/
def part768 : Partition := ⟨2048, 1000, 768⟩

/-- `cp0` after one `get` of logical sector 5: sector 5 is cached. -/
def cp5 : CachedPartition := (cp0.get 5).snd

/-- A legal MBR boot indicator is `0x00` or `0x80` (mbr.rs line 116). -/
def legalBootIndicator (buf : List Nat) (i : Nat) : Prop :=
  buf.getD (446 + 16 * i) 0 = 0 ∨ buf.getD (446 + 16 * i) 0 = 128

instance (buf : List Nat) (i : Nat) : Decidable (legalBootIndicator buf i) := by
  unfold legalBootIndicator
  infer_instance

/-- A 512-byte sector-0 image that is all zero except for a valid trailing
magic: all four boot indicators are 0, so MBR parsing succeeds. -/
def bufM : List Nat := List.replicate 510 0 ++ [85, 170]

/-- A 512-byte sector-0 image with valid magic whose partition entry 2 has
boot indicator `0x01` (byte 478 = 446 + 16*2). -/
def bufK : List Nat :=
  List.replicate 478 0 ++ [1] ++ List.replicate 31 0 ++ [85, 170]

/-- A 512-byte EBPB image with valid magic and signature `0x28` whose 16-bit
legacy sector count (offset 19) is 5. -/
def bufA : List Nat :=
  List.replicate 19 0 ++ [5] ++ List.replicate 46 0 ++ [40] ++
    List.replicate 443 0 ++ [85, 170]

/-- A 512-byte EBPB image with valid magic and signature `0x28` whose 16-bit
legacy sector count is 0 and whose 32-bit extended count (offset 32) is 16. -/
def bufB : List Nat :=
  List.replicate 32 0 ++ [16] ++ List.replicate 33 0 ++ [40] ++
    List.replicate 443 0 ++ [85, 170]

/-! ## Helper lemmas about the cache state machine -/

/-- `load_sector` never touches the cache map (it only reads the device and
bumps the read count). -/
lemma load_sector_cache (c : CachedPartition) (buf : List Nat) (s : Nat) :
    ((c.load_sector buf s).snd).cache = c.cache := by
  unfold CachedPartition.load_sector
  cases c.virtual_to_physical s with
  | none => rfl
  | some phy =>
    rcases hr : CachedPartition.readRun c.device phy 0 c.factor [] 0 with ⟨res, n⟩
    cases res <;> simp [hr]

/-- The result (but not the state) of `load_sector` ignores the cache map,
the read count, and the incoming buffer: it depends only on the device and
the partition. -/
lemma load_sector_fst_congr (d : Device) (ch ch2 : Nat → Option CacheEntry)
    (p : Partition) (r r2 : Nat) (buf buf2 : List Nat) (s : Nat) :
    (CachedPartition.load_sector ⟨d, ch, p, r⟩ buf s).fst =
      (CachedPartition.load_sector ⟨d, ch2, p, r2⟩ buf2 s).fst := by
  unfold CachedPartition.load_sector CachedPartition.virtual_to_physical
    CachedPartition.factor
  rcases le_or_lt p.num_sectors s with h | h
  · simp [if_pos h]
  · rw [if_neg (Nat.not_le.mpr h)]
    rcases hr : CachedPartition.readRun d (p.start + s * (p.sector_size / d.sector_size))
        0 (p.sector_size / d.sector_size) [] 0 with ⟨res, n⟩
    cases res <;> simp [hr]

/-- `get_entry` on an already-cached sector returns the entry and the state
completely unchanged. -/
lemma get_entry_cached {c : CachedPartition} {s : Nat} {e : CacheEntry}
    (h : c.cache s = some e) : c.get_entry s = (.ok e, c) := by
  unfold CachedPartition.get_entry
  rw [h]

/-- `get_entry` on an uncached sector takes the load path. -/
lemma get_entry_uncached {c : CachedPartition} {s : Nat} (h : c.cache s = none) :
    c.get_entry s =
      match c.load_sector [] s with
      | (.error e, c2) => (.error e, c2)
      | (.ok buf, c2) =>
        (.ok ⟨buf, false⟩,
          { c2 with cache := fun t => if t = s then some ⟨buf, false⟩ else c2.cache t }) := by
  unfold CachedPartition.get_entry
  rw [h]

/-- `get_entry` changes the cache map at most at the requested sector. -/
lemma get_entry_cache_off {c : CachedPartition} {s t : Nat} (ht : t ≠ s) :
    ((c.get_entry s).snd).cache t = c.cache t := by
  cases h : c.cache s with
  | some e => rw [get_entry_cached h]
  | none =>
    rw [get_entry_uncached h]
    rcases hl : c.load_sector [] s with ⟨res, c2⟩
    have hc2 : c2.cache = c.cache := by
      have := load_sector_cache c [] s
      rw [hl] at this
      exact this
    cases res with
    | error e => simp [hc2]
    | ok buf => simp [if_neg ht, hc2]

/-- `get_entry` never removes a cache entry: any sector that was cached stays
cached (at any requested sector). -/
lemma get_entry_cache_mono {c : CachedPartition} {s t : Nat}
    (h : (c.cache t).isSome) : (((c.get_entry s).snd).cache t).isSome := by
  by_cases hts : t = s
  · subst hts
    cases hc : c.cache t with
    | some e => rw [get_entry_cached hc]; simp [hc]
    | none => rw [hc] at h; simp at h
  · rw [get_entry_cache_off hts]
    exact h

/-- On any input, the state `load_sector` returns differs from the input
state at most in the read count. -/
lemma load_sector_snd (c : CachedPartition) (buf : List Nat) (s : Nat) :
    ∃ k, (c.load_sector buf s).snd = { c with readCount := k } := by
  unfold CachedPartition.load_sector
  cases c.virtual_to_physical s with
  | none => exact ⟨c.readCount, rfl⟩
  | some phy =>
    rcases hr : CachedPartition.readRun c.device phy 0 c.factor [] 0 with ⟨res, n⟩
    cases res <;> exact ⟨c.readCount + n, by simp [hr]⟩

/-- `get` on an already-cached sector returns the entry's bytes and the state
completely unchanged. -/
lemma get_cached {c : CachedPartition} {s : Nat} {e : CacheEntry}
    (h : c.cache s = some e) : c.get s = (.ok e.data, c) := by
  unfold CachedPartition.get
  rw [get_entry_cached h]

/-- `get_mut` on an already-cached sector returns the entry's bytes and only
redirects the cache map at that sector to the dirty entry. -/
lemma get_mut_cached {c : CachedPartition} {s : Nat} {e : CacheEntry}
    (h : c.cache s = some e) :
    c.get_mut s =
      (.ok e.data,
        { c with cache := fun t => if t = s then some ⟨e.data, true⟩ else c.cache t }) := by
  unfold CachedPartition.get_mut
  rw [get_entry_cached h]

/-- `get` never removes a cache entry. -/
lemma get_cache_mono {c : CachedPartition} {s t : Nat}
    (h : (c.cache t).isSome) : (((c.get s).snd).cache t).isSome := by
  unfold CachedPartition.get
  rcases he : c.get_entry s with ⟨res, c1⟩
  have h1 : (((c.get_entry s).snd).cache t).isSome := get_entry_cache_mono h
  rw [he] at h1
  cases res <;> exact h1

/-- `get_mut` never removes a cache entry. -/
lemma get_mut_cache_mono {c : CachedPartition} {s t : Nat}
    (h : (c.cache t).isSome) : (((c.get_mut s).snd).cache t).isSome := by
  unfold CachedPartition.get_mut
  rcases he : c.get_entry s with ⟨res, c1⟩
  have h1 : (((c.get_entry s).snd).cache t).isSome := get_entry_cache_mono h
  rw [he] at h1
  cases res with
  | error e => exact h1
  | ok e =>
    by_cases hts : t = s
    · subst hts; simp
    · simp only [hts, if_neg hts]
      exact h1

/-- `read_sector` never removes a cache entry. -/
lemma read_sector_cache_mono {c : CachedPartition} {s t : Nat} {b : List Nat}
    (h : (c.cache t).isSome) : (((c.read_sector s b).snd).cache t).isSome := by
  unfold CachedPartition.read_sector
  rcases he : c.get s with ⟨res, c1⟩
  have h1 : (((c.get s).snd).cache t).isSome := get_cache_mono h
  rw [he] at h1
  cases res <;> exact h1

/-- `write_sector` never removes a cache entry. -/
lemma write_sector_cache_mono {c : CachedPartition} {s t : Nat} {b : List Nat}
    (h : (c.cache t).isSome) : (((c.write_sector s b).snd).cache t).isSome := by
  unfold CachedPartition.write_sector
  rcases he : c.get_mut s with ⟨res, c1⟩
  have h1 : (((c.get_mut s).snd).cache t).isSome := get_mut_cache_mono h
  rw [he] at h1
  cases res with
  | error e => exact h1
  | ok d =>
    by_cases hts : t = s
    · subst hts; simp
    · simp only [hts, if_neg hts]
      exact h1

/-! ## The claims -/

/-- C1: the claim says `load` fills a logical-sector-sized buffer with the
`factor()` physical sectors' bytes.  The code instead reads every physical
sector into the reinterpreted scratch `cache_line_buffer` and never copies a
byte into `buf`: on the spec's own 512-byte partition over a device whose
sector 2048 holds 512 bytes, a successful load returns the empty buffer. -/
theorem claim_C1_load_returns_empty :
    (cp0.load_sector [] 0).fst = .ok ([] : List Nat) ∧
      cp0.partition.sector_size = 512 ∧ cp0.device.read 2048 = some (List.replicate 512 7) :=
  ⟨rfl, rfl, rfl⟩

/-- C2: the claim says writing N bytes to logical sector 7 then reading it
back yields those bytes.  Because `load_sector` caches an empty buffer, the
code's `write_sector` writes `min(0, 1) = 0` bytes and the subsequent
`read_sector` copies 0 bytes, leaving the caller's buffer untouched
(`[99]`, not `[42]`). -/
theorem claim_C2_roundtrip_fails :
    (cp0.write_sector 7 [42]).fst = .ok 0 ∧
      ((cp0.write_sector 7 [42]).snd.read_sector 7 [99]).fst = .ok (0, [99]) :=
  ⟨rfl, rfl⟩

/-- C3 counterexample: with a 512-byte-sector device and logical sector size
768 (≥ 512 but not a multiple), construction succeeds outright — no
configuration error is returned, refuting the claim that a non-dividing
ratio fails at construction. -/
theorem claim_C3_counterexample :
    (CachedPartition.new device0 part768).isSome = true ∧ 768 % 512 ≠ 0 := by
  constructor
  · rfl
  · decide

/-- C3 amended: `CachedPartition::new` asserts (panics — modelled as `none`)
exactly when the partition's logical sector size is smaller than the device's
physical sector size, and otherwise always constructs the cache; no
divisibility validation is performed and no configuration error is ever
returned. -/
theorem claim_C3_amended (d : Device) (p : Partition) :
    (CachedPartition.new d p).isSome ↔ d.sector_size ≤ p.sector_size := by
  unfold CachedPartition.new
  split <;> simp [*]

/-- C4: the claim says the re-exposed `sector_size()` terminates and returns
the partition's logical sector size.  The implementation body is
`self.sector_size()`, which resolves to the trait method itself: the call
recurses unconditionally and never produces a value at any call depth. -/
theorem claim_C4_sector_size_diverges (c : CachedPartition) (fuel : Nat) :
    c.sector_size_impl fuel = none := by
  induction fuel with
  | zero => rfl
  | succ n ih => exact ih

/-- C5: `virtual_to_physical` returns `partition.start + virt * factor()` for
in-range logical sectors and `none` (surfaced as `InvalidInput` by
`load_sector`) exactly for `virt ≥ num_sectors`; on the spec's concrete
partition (start 2048, 1000 sectors of 512 bytes, factor 1), sector 0 maps to
2048, sector 999 to 3047, and sector 1000 fails with `InvalidInput`. -/
theorem claim_C5_translate (c : CachedPartition) (v : Nat) :
    (v < c.partition.num_sectors →
      c.virtual_to_physical v = some (c.partition.start + v * c.factor)) ∧
    (c.partition.num_sectors ≤ v → c.virtual_to_physical v = none) ∧
    cp0.virtual_to_physical 0 = some 2048 ∧
    cp0.virtual_to_physical 999 = some 3047 ∧
    cp0.virtual_to_physical 1000 = none ∧
    (cp0.load_sector [] 1000).fst = .error .invalidInput := by
  refine ⟨?_, ?_, rfl, rfl, rfl, rfl⟩
  · intro h
    unfold CachedPartition.virtual_to_physical
    rw [if_neg (Nat.not_le.mpr h)]
  · intro h
    unfold CachedPartition.virtual_to_physical
    rw [if_pos h]

/-- C5 witness: the general characterisation applied to logical sector 0 of
the spec's concrete partition. -/
theorem claim_C5_translate_witness :
    cp0.virtual_to_physical 0 = some (cp0.partition.start + 0 * cp0.factor) :=
  (claim_C5_translate cp0 0).1 (by decide)

/-- C6: once a logical sector has an entry in the cache, `get`, `get_mut`,
`read_sector` and `write_sector` on it perform zero physical-device reads
(`get`/`read_sector` leave the whole state unchanged; `get_mut`/`write_sector`
only touch the cache map), no operation ever evicts an entry, and on the
concrete partition two consecutive `get(5)` calls perform exactly one
physical read (the count is already 1 after the first call). -/
theorem claim_C6_one_load_per_sector :
    (∀ (c : CachedPartition) (s : Nat) (e : CacheEntry), c.cache s = some e →
      (c.get s).snd = c ∧
      (c.get_mut s).snd.readCount = c.readCount ∧
      (∀ b, (c.read_sector s b).snd = c) ∧
      (∀ b, (c.write_sector s b).snd.readCount = c.readCount)) ∧
    (∀ (c : CachedPartition) (s t : Nat) (b : List Nat), (c.cache s).isSome →
      (((c.get t).snd).cache s).isSome ∧
      (((c.get_mut t).snd).cache s).isSome ∧
      (((c.read_sector t b).snd).cache s).isSome ∧
      (((c.write_sector t b).snd).cache s).isSome) ∧
    ((cp0.get 5).snd.readCount = 1 ∧ (((cp0.get 5).snd.get 5).snd).readCount = 1) := by
  refine ⟨?_, ?_, rfl, rfl⟩
  · intro c s e h
    refine ⟨?_, ?_, ?_, ?_⟩
    · rw [get_cached h]
    · rw [get_mut_cached h]
    · intro b
      unfold CachedPartition.read_sector
      rw [get_cached h]
    · intro b
      unfold CachedPartition.write_sector
      rw [get_mut_cached h]
  · intro c s t b h
    exact ⟨get_cache_mono h, get_mut_cache_mono h, read_sector_cache_mono h,
      write_sector_cache_mono h⟩

/-- C6 witness: with sector 5 already cached (state `cp5`), a further `get`
of sector 5 leaves the state — in particular the device-read count —
unchanged. -/
theorem claim_C6_one_load_per_sector_witness : (cp5.get 5).snd = cp5 :=
  (claim_C6_one_load_per_sector.1 cp5 5 ⟨[], false⟩ rfl).1

/-- C7: when `get_entry` fails (a failed load), the cache map is left exactly
as it was — no entry is inserted — and a retry of the same sector re-attempts
the load, failing with the same error against the unchanged device. -/
theorem claim_C7_failed_load_inserts_nothing (c : CachedPartition) (s : Nat)
    (e : IOError) (h : (c.get_entry s).fst = .error e) :
    ((c.get_entry s).snd).cache = c.cache ∧
    (((c.get_entry s).snd).get_entry s).fst = .error e := by
  have hc : c.cache s = none := by
    cases hcc : c.cache s with
    | none => rfl
    | some e2 => rw [get_entry_cached hcc] at h; simp at h
  have hload : (c.load_sector [] s).fst = .error e := by
    rw [get_entry_uncached hc] at h
    rcases hl : c.load_sector [] s with ⟨res, c2⟩
    rw [hl] at h
    cases res with
    | error e2 => simp at h; simp [h]
    | ok buf => simp at h
  obtain ⟨k, hk⟩ := load_sector_snd c [] s
  have hsnd : (c.get_entry s).snd = { c with readCount := k } := by
    rw [get_entry_uncached hc]
    rcases hl : c.load_sector [] s with ⟨res, c2⟩
    rw [hl] at hload hk
    cases res with
    | error e2 => exact hk
    | ok buf => simp at hload
  constructor
  · rw [hsnd]
  · rw [hsnd]
    have hcnone : ({ c with readCount := k } : CachedPartition).cache s = none := hc
    rw [get_entry_uncached hcnone]
    have hfst : (({ c with readCount := k } : CachedPartition).load_sector [] s).fst =
        (c.load_sector [] s).fst := by
      rcases c with ⟨d, ch, p, r⟩
      exact load_sector_fst_congr d ch ch p k r [] [] s
    rcases hl2 : ({ c with readCount := k } : CachedPartition).load_sector [] s with ⟨res2, c3⟩
    rw [hl2] at hfst
    rw [hload] at hfst
    simp at hfst
    rw [hfst]

/-- C7 witness: over the always-failing device, the failed `get_entry` of
logical sector 3 leaves the (empty) cache map unchanged and a retry fails
with the same device error. -/
theorem claim_C7_failed_load_inserts_nothing_witness :
    ((cpBad.get_entry 3).snd).cache = cpBad.cache ∧
      (((cpBad.get_entry 3).snd).get_entry 3).fst = .error .devError :=
  claim_C7_failed_load_inserts_nothing cpBad 3 .devError rfl

/-- C10: a successful `get_mut` leaves the requested sector's entry dirty
(with the returned bytes) and touches no other sector's entry, while `get` on
a cached sector returns the bytes with the entire state — dirty flags
included — unchanged. -/
theorem claim_C10_dirty_flag :
    (∀ (c : CachedPartition) (s : Nat) (e : CacheEntry), c.cache s = some e →
      c.get s = (.ok e.data, c)) ∧
    (∀ (c : CachedPartition) (s : Nat) (d : List Nat) (c2 : CachedPartition),
      c.get_mut s = (.ok d, c2) →
        c2.cache s = some ⟨d, true⟩ ∧ ∀ t, t ≠ s → c2.cache t = c.cache t) := by
  constructor
  · intro c s e h
    exact get_cached h
  · intro c s d c2 h
    unfold CachedPartition.get_mut at h
    rcases he : c.get_entry s with ⟨res, c1⟩
    rw [he] at h
    cases res with
    | error er => simp at h
    | ok e =>
      simp only [Prod.mk.injEq, Except.ok.injEq] at h
      obtain ⟨hd, hc2⟩ := h
      subst hd
      constructor
      · rw [← hc2]
        simp
      · intro t ht
        rw [← hc2]
        have hoff : c1.cache t = c.cache t := by
          have := get_entry_cache_off (c := c) (s := s) ht
          rw [he] at this
          exact this
        simp [if_neg ht, hoff]

/-- Stepping lemma: a legal boot indicator advances the validation loop. -/
lemma checkIndicators_step_good {buf : List Nat} {i k : Nat}
    (h : legalBootIndicator buf i) :
    checkIndicators buf i (k + 1) = checkIndicators buf (i + 1) k := by
  simp only [checkIndicators]
  rw [if_neg (fun hc => h.elim hc.1 hc.2)]

/-- Stepping lemma: an illegal boot indicator fails the validation loop with
that entry's index. -/
lemma checkIndicators_step_bad {buf : List Nat} {i k : Nat}
    (h : ¬legalBootIndicator buf i) :
    checkIndicators buf i (k + 1) = .error (.unknownBootIndicator i) := by
  simp only [checkIndicators]
  rw [if_pos ⟨fun h0 => h (Or.inl h0), fun h1 => h (Or.inr h1)⟩]

/-- C8: MBR parsing of a 512-byte sector-0 buffer fails with `BadSignature`
exactly when the trailing two bytes are not `0x55, 0xAA`; with the magic
valid, the least entry index `k` whose boot indicator is neither `0x00` nor
`0x80` fails with `UnknownBootIndicator(k)` (entries after `k` are never
inspected — the result is fixed whatever they hold); with the magic valid
and all four indicators legal, parsing succeeds with the decoded record. -/
theorem claim_C8_mbr_validation (buf : List Nat) (_hlen : buf.length = 512) :
    (¬(buf.getD 510 0 = 85 ∧ buf.getD 511 0 = 170) →
      MasterBootRecord.from buf = .error .badSignature) ∧
    ((buf.getD 510 0 = 85 ∧ buf.getD 511 0 = 170) →
      ∀ k, k < 4 → ¬legalBootIndicator buf k →
        (∀ j, j < k → legalBootIndicator buf j) →
        MasterBootRecord.from buf = .error (.unknownBootIndicator k)) ∧
    ((buf.getD 510 0 = 85 ∧ buf.getD 511 0 = 170) →
      (∀ i, i < 4 → legalBootIndicator buf i) →
        MasterBootRecord.from buf = .ok (decodeMBR buf)) := by
  refine ⟨?_, ?_, ?_⟩
  · intro h
    unfold MasterBootRecord.from
    rw [if_pos h]
  · intro hm k hk hbad hgood
    unfold MasterBootRecord.from
    rw [if_neg (not_not_intro hm)]
    interval_cases k
    · rw [checkIndicators_step_bad hbad]
    · rw [checkIndicators_step_good (hgood 0 (by omega)),
        checkIndicators_step_bad hbad]
    · rw [checkIndicators_step_good (hgood 0 (by omega)),
        checkIndicators_step_good (hgood 1 (by omega)),
        checkIndicators_step_bad hbad]
    · rw [checkIndicators_step_good (hgood 0 (by omega)),
        checkIndicators_step_good (hgood 1 (by omega)),
        checkIndicators_step_good (hgood 2 (by omega)),
        checkIndicators_step_bad hbad]
  · intro hm hgood
    unfold MasterBootRecord.from
    rw [if_neg (not_not_intro hm)]
    rw [checkIndicators_step_good (hgood 0 (by omega)),
      checkIndicators_step_good (hgood 1 (by omega)),
      checkIndicators_step_good (hgood 2 (by omega)),
      checkIndicators_step_good (hgood 3 (by omega))]
    rfl

set_option maxRecDepth 8000 in
/-- C8 witness: the three validation branches on concrete 512-byte images —
an all-zero sector (bad magic), a sector whose entry 2 carries boot
indicator 1 (fails with index 2), and a valid all-zero-indicator sector. -/
theorem claim_C8_mbr_validation_witness :
    MasterBootRecord.from (List.replicate 512 0) = .error .badSignature ∧
    MasterBootRecord.from bufK = .error (.unknownBootIndicator 2) ∧
    MasterBootRecord.from bufM = .ok (decodeMBR bufM) :=
  ⟨(claim_C8_mbr_validation (List.replicate 512 0) (by decide)).1 (by decide),
    (claim_C8_mbr_validation bufK (by decide)).2.1 (by decide) 2 (by decide)
      (by decide) (by decide),
    (claim_C8_mbr_validation bufM (by decide)).2.2 (by decide) (by decide)⟩

/-- C9: for every buffer the EBPB reader accepts, `logical_sectors` resolves
the two alternative on-disk sector-count fields canonically: it is the
little-endian 16-bit field at offset 19 when that field is nonzero, and the
little-endian 32-bit field at offset 32 otherwise. -/
theorem claim_C9_logical_sectors (buf : List Nat) (b : BiosParameterBlock)
    (h : BiosParameterBlock.from buf = .ok b) :
    b.logical_sectors =
      if u16le buf 19 ≠ 0 then u16le buf 19 else u32le buf 32 := by
  unfold BiosParameterBlock.from at h
  split at h
  · simp at h
  · simp only [Except.ok.injEq] at h
    subst h
    show (if 0 < u16le buf 19 then u16le buf 19 else u32le buf 32) = _
    rcases Nat.eq_zero_or_pos (u16le buf 19) with h0 | h0
    · rw [h0]
      simp
    · rw [if_pos h0, if_pos (Nat.pos_iff_ne_zero.mp h0)]

set_option maxRecDepth 8000 in
/-- C9 witness: the two crafted cases — a volume whose 16-bit count is 5
(used as is) and one whose 16-bit count is 0 with 32-bit count 16 (the
extended field is used). -/
theorem claim_C9_logical_sectors_witness :
    ((decodeBPB bufA).logical_sectors =
      if u16le bufA 19 ≠ 0 then u16le bufA 19 else u32le bufA 32) ∧
    ((decodeBPB bufB).logical_sectors =
      if u16le bufB 19 ≠ 0 then u16le bufB 19 else u32le bufB 32) :=
  ⟨claim_C9_logical_sectors bufA (decodeBPB bufA) rfl,
    claim_C9_logical_sectors bufB (decodeBPB bufB) rfl⟩

/-- C10 witness: on the state with sector 5 cached clean, `get` returns the
cached bytes with the state unchanged, and a `get_mut` leaves the entry
dirty. -/
theorem claim_C10_dirty_flag_witness :
    cp5.get 5 = (.ok ([] : List Nat), cp5) ∧
      ((cp5.get_mut 5).snd).cache 5 = some ⟨[], true⟩ :=
  ⟨claim_C10_dirty_flag.1 cp5 5 ⟨[], false⟩ rfl,
    (claim_C10_dirty_flag.2 cp5 5 [] (cp5.get_mut 5).snd rfl).1⟩
